import Mathlib

/-!
Verification of the AgentNet `TargetNetwork` (spec name: ParameterShadow) and
`SessionBatchEnvironment` (spec name: ReplaySessionSource) modules, embedded
shallowly from `src/agentnet/target_network/__init__.py` and
`src/agentnet/environment/session_batch.py`.

Parameter nodes (theano shared variables) are modelled by natural-number
identifiers; Python `==`/`!=` between theano variables is default object
identity, which the identifiers capture.  Numeric tensor contents are
modelled with `ℚ` (exact arithmetic over the reals the spec describes).
-/

namespace AgentNet

/-! ## TargetNetwork (`src/agentnet/target_network/__init__.py`) -/

/-- The graph context a `TargetNetwork.__init__` call runs in:
`original_network_outputs` and the clone `output_layers` produced by
`clone_network` are layer-set identifiers, and `get_all_params` is
`lasagne.layers.get_all_params`, returning the list of parameter-node
identifiers of a layer set. -/
structure TargetNetworkCtx where
  original_network_outputs : Nat
  /-- `self.output_layers = clone_network(original_network_outputs, bottom_layers, share_inputs)` -/
  output_layers : Nat
  get_all_params : Nat → List Nat

/-- `self.param_dict` as computed by `TargetNetwork.__init__` (lines 44-53):
both `all_clone_params` and `all_original_params` are obtained by calling
`get_all_params(original_network_outputs)` — the source never queries the
clone `self.output_layers` — and the dictionary keeps the zipped pairs with
`clone_param != original_param` (object non-identity). -/
def TargetNetwork.param_dict (ctx : TargetNetworkCtx) : List (Nat × Nat) :=
  let all_clone_params := ctx.get_all_params ctx.original_network_outputs
  let all_original_params := ctx.get_all_params ctx.original_network_outputs
  (all_clone_params.zip all_original_params).filter (fun p => decide (p.1 ≠ p.2))

/-- The parameter dictionary `TargetNetwork.__init__` was evidently meant to
build (clone parameters drawn from the clone `self.output_layers`), kept for
comparison with `TargetNetwork.param_dict`. -/
def TargetNetwork.param_dict_intended (ctx : TargetNetworkCtx) : List (Nat × Nat) :=
  let all_clone_params := ctx.get_all_params ctx.output_layers
  let all_original_params := ctx.get_all_params ctx.original_network_outputs
  (all_clone_params.zip all_original_params).filter (fun p => decide (p.1 ≠ p.2))

/-- A concrete assignment of values to every parameter node. -/
def ParamEnv : Type := Nat → ℚ

/-- The precompiled hard-copy update `self.load_weights_hard`
(`theano.function([], updates=self.param_dict)`): every clone parameter
appearing as a key of `param_dict` receives the value of its original
parameter; every other parameter keeps its value.  All reads happen on the
pre-update environment, as theano update dictionaries do. -/
def load_weights_hard (param_dict : List (Nat × Nat)) (env : ParamEnv) : ParamEnv :=
  fun p =>
    match param_dict.lookup p with
    | some original_param => env original_param
    | none => env p

/-- The precompiled moving-average update `self.load_weights_moving_average`
(`clone_param: (1-alpha)*clone_param + (alpha)*original_param` over
`self.param_dict`, lines 57-61). -/
def load_weights_moving_average (alpha : ℚ) (param_dict : List (Nat × Nat))
    (env : ParamEnv) : ParamEnv :=
  fun p =>
    match param_dict.lookup p with
    | some original_param => (1 - alpha) * env p + alpha * env original_param
    | none => env p

/-- `TargetNetwork.load_weights` (lines 63-79): asserts
`0 <= moving_average_alpha <= 1`, then runs the hard copy when
`moving_average_alpha == 1` and the moving-average blend otherwise.
The `Except.error` case models the `AssertionError`. -/
def load_weights (param_dict : List (Nat × Nat)) (moving_average_alpha : ℚ)
    (env : ParamEnv) : Except String ParamEnv :=
  if 0 ≤ moving_average_alpha ∧ moving_average_alpha ≤ 1 then
    if moving_average_alpha = 1 then
      Except.ok (load_weights_hard param_dict env)
    else
      Except.ok (load_weights_moving_average moving_average_alpha param_dict env)
  else
    Except.error "assert 0<=moving_average_alpha<=1"

/-- Zipping a list with itself and keeping the non-identical pairs leaves
nothing, so `TargetNetwork.param_dict` is always empty. -/
theorem param_dict_eq_nil (ctx : TargetNetworkCtx) :
    TargetNetwork.param_dict ctx = [] := by
  unfold TargetNetwork.param_dict
  induction ctx.get_all_params ctx.original_network_outputs with
  | nil => rfl
  | cons x xs ih => simpa using ih

theorem load_weights_hard_nil (env : ParamEnv) : load_weights_hard [] env = env := rfl

theorem load_weights_moving_average_nil (alpha : ℚ) (env : ParamEnv) :
    load_weights_moving_average alpha [] env = env := rfl

/-- On a one-parameter network whose clone owns its parameter node (id 1,
distinct from the original's id 0), the dictionary the constructor builds is
empty while the intended one pairs the clone parameter with the original;
over the intended pairing the hard copy would load the source value 5 and
the half blend would give 4. -/
theorem param_dict_divergence_example :
    TargetNetwork.param_dict
      { original_network_outputs := 0
        output_layers := 1
        get_all_params := fun l => if l = 0 then [0] else [1] } = []
    ∧ TargetNetwork.param_dict_intended
      { original_network_outputs := 0
        output_layers := 1
        get_all_params := fun l => if l = 0 then [0] else [1] } = [(1, 0)]
    ∧ load_weights_hard [(1, 0)] (fun p => if p = 0 then 5 else 3) 1 = 5
    ∧ load_weights_moving_average (1/2) [(1, 0)]
        (fun p => if p = 0 then 5 else 3) 1 = 4 :=
  ⟨rfl, rfl, rfl, by norm_num [load_weights_moving_average, List.lookup]⟩

/-- C1: false on the code.  Because `TargetNetwork.__init__` computes both
`all_clone_params` and `all_original_params` from `original_network_outputs`
(never from the clone `self.output_layers`), `param_dict` is empty, so
`load_weights(1)` returns every parameter environment unchanged — it never
copies a source parameter into a differing clone parameter. -/
theorem sync_one_is_noop (ctx : TargetNetworkCtx) (env : ParamEnv) :
    load_weights (TargetNetwork.param_dict ctx) 1 env = Except.ok env := by
  rw [param_dict_eq_nil]
  rfl

/-- C2: false on the code for `0 < alpha < 1`.  With the always-empty
`param_dict`, `load_weights(alpha)` is a no-op for every `alpha` in `[0,1]`:
the clone's parameters are never blended towards the source's.  (The
`alpha = 0` part of the claim does hold, but only vacuously.) -/
theorem sync_alpha_is_noop (ctx : TargetNetworkCtx) (alpha : ℚ) (env : ParamEnv)
    (h0 : 0 ≤ alpha) (h1 : alpha ≤ 1) :
    load_weights (TargetNetwork.param_dict ctx) alpha env = Except.ok env := by
  rw [param_dict_eq_nil]
  unfold load_weights
  rw [if_pos ⟨h0, h1⟩]
  split <;> rfl

theorem sync_alpha_is_noop_check :
    (0 : ℚ) ≤ 1/2 ∧ (1/2 : ℚ) ≤ 1 ∧
      load_weights
        (TargetNetwork.param_dict
          { original_network_outputs := 0
            output_layers := 1
            get_all_params := fun l => if l = 0 then [0] else [1] })
        (1/2) (fun p => if p = 0 then 5 else 3) =
      Except.ok (fun p => if p = 0 then 5 else 3) :=
  ⟨by norm_num, by norm_num,
   sync_alpha_is_noop _ _ _ (by norm_num) (by norm_num)⟩

/-- C7: `load_weights` fails (the `assert 0<=moving_average_alpha<=1`) exactly
when `moving_average_alpha` lies outside `[0,1]`; inside the interval it
always succeeds. -/
theorem sync_succeeds_iff_alpha_in_range (param_dict : List (Nat × Nat))
    (alpha : ℚ) (env : ParamEnv) :
    (∃ env2, load_weights param_dict alpha env = Except.ok env2) ↔
      (0 ≤ alpha ∧ alpha ≤ 1) := by
  constructor
  · rintro ⟨env2, he⟩
    by_contra h
    unfold load_weights at he
    rw [if_neg h] at he
    exact Except.noConfusion he
  · intro h
    unfold load_weights
    rw [if_pos h]
    split
    · exact ⟨_, rfl⟩
    · exact ⟨_, rfl⟩

/-- C9: over exact arithmetic the precompiled hard copy and the precompiled
moving-average blend at `alpha = 1` are the same parameter update, whatever
the parameter dictionary is. -/
theorem hard_copy_eq_blend_at_one (param_dict : List (Nat × Nat)) (env : ParamEnv) :
    load_weights_hard param_dict env = load_weights_moving_average 1 param_dict env := by
  funext p
  unfold load_weights_hard load_weights_moving_average
  cases param_dict.lookup p with
  | none => rfl
  | some original_param => norm_num

/-! ## SessionBatchEnvironment (`src/agentnet/environment/session_batch.py`) -/

/-- A theano tensor of shape `[batch, time, ...]`: `ndim` is the static rank,
`shape0` and `shape1` the batch and time extents, `featLen` the element count
of one one-batch-one-tick sub-tensor, `val b t` that sub-tensor's flattened
contents at `[b, t]`, and `dtype` the element type tag. -/
structure TTensor where
  ndim : Nat
  dtype : String
  shape0 : Nat
  shape1 : Nat
  featLen : Nat
  val : Nat → Nat → List ℚ

/-- A rewards tensor `[batch, time]`. -/
def RewardTensor : Type := Nat → Nat → ℚ

/-- Modelled from the spec: `check_list` (from `agentnet.utils.format`, which
is not under `src/`) normalizes "a tensor or a list of such" into a list of
tensors; on an argument already given as a list it is the identity, which is
the only case the claims exercise. -/
def check_list {α : Type} (xs : List α) : List α := xs

/-- The `single_action_shapes` argument: either the string default
`"all_scalar"` or an explicit list of per-tick shapes. -/
inductive SingleActionShapes where
  | all_scalar : SingleActionShapes
  | shapes : List (List Nat) → SingleActionShapes

/-- `T.concatenate([obs, T.zeros_like(obs[:, :1])], axis=1)` (line 84): the
original tensor with one all-zero tick appended on the time axis. -/
def padObservation (obs : TTensor) : TTensor :=
  { ndim := obs.ndim
    dtype := obs.dtype
    shape0 := obs.shape0
    shape1 := obs.shape1 + 1
    featLen := obs.featLen
    val := fun b t =>
      if t < obs.shape1 then obs.val b t else List.replicate obs.featLen 0 }

/-- The ways `SessionBatchEnvironment.__init__` can raise. -/
inductive ConstructError where
  /-- the `assert obs.ndim == len(obs_shape) + 2` loop, line 69 -/
  | shape_assert : ConstructError
  /-- `self.observations[0]` on an empty observations list, line 88 -/
  | index_error : ConstructError
  /-- `self.single_action_shapes` / `self.actions` were never assigned
  because `actions is None`, read at lines 96/99 -/
  | attribute_error : ConstructError
deriving DecidableEq

/-- The state of a constructed `SessionBatchEnvironment`, including the
fields forwarded to `BaseEnvironment.__init__` (lines 93-100). -/
structure SessionBatchEnvironment where
  observations : List TTensor
  single_observation_shapes : List (List Nat)
  actions : List TTensor
  single_action_shapes : List (List Nat)
  rewards : Option RewardTensor
  is_alive : Option TTensor
  preceding_agent_memory : Option (List TTensor)
  padded_observations : List TTensor
  batch_size : Nat
  sequence_length : Nat
  observation_dtypes : List String
  action_dtypes : List String

/-- `SessionBatchEnvironment.__init__` (lines 59-100).  The assertion loop
runs over `zip(self.observations, self.single_observation_shapes)`; the
actions block (lines 71-75) only assigns `self.actions` and
`self.single_action_shapes` when `actions is not None`, so the later reads
at lines 96/99 raise `AttributeError` when it is; `self.observations[0]`
(line 88) raises `IndexError` on an empty observations list. -/
def SessionBatchEnvironment.init (observations : List TTensor)
    (single_observation_shapes : List (List Nat))
    (actions : Option (List TTensor))
    (single_action_shapes : SingleActionShapes)
    (rewards : Option RewardTensor)
    (is_alive : Option TTensor)
    (preceding_agent_memory : Option (List TTensor)) :
    Except ConstructError SessionBatchEnvironment :=
  if !(((check_list observations).zip (check_list single_observation_shapes)).all
        (fun p => p.1.ndim == p.2.length + 2)) then
    Except.error ConstructError.shape_assert
  else
    match check_list observations with
    | [] => Except.error ConstructError.index_error
    | obs0 :: _ =>
      match actions with
      | none => Except.error ConstructError.attribute_error
      | some acts =>
        Except.ok
          { observations := check_list observations
            single_observation_shapes := check_list single_observation_shapes
            actions := check_list acts
            single_action_shapes :=
              match single_action_shapes with
              | SingleActionShapes.all_scalar =>
                  List.replicate (check_list acts).length []
              | SingleActionShapes.shapes s => s
            rewards := rewards
            is_alive := is_alive
            preceding_agent_memory := preceding_agent_memory
            padded_observations := (check_list observations).map padObservation
            batch_size := obs0.shape0
            sequence_length := obs0.shape1
            observation_dtypes := (check_list observations).map (fun o => o.dtype)
            action_dtypes := (check_list acts).map (fun a => a.dtype) }

/-- `SessionBatchEnvironment.get_action_results` (lines 105-123): reads
`time_i = check_list(last_states)[0]` (`none` models the `IndexError` on an
empty state list), ignores `actions` entirely, and returns `([time_i + 1],
[obs[T.arange(batch), time_i + 1] for obs in self.padded_observations])`.
A state is a per-batch-element tick index `Nat → Nat`. -/
def SessionBatchEnvironment.get_action_results {α : Type}
    (env : SessionBatchEnvironment) (last_states : List (Nat → Nat))
    (actions : α) :
    Option (List (Nat → Nat) × List (Nat → List ℚ)) :=
  match check_list last_states with
  | [] => none
  | time_i :: _ =>
    some ([fun b => time_i b + 1],
          env.padded_observations.map (fun obs => fun b => obs.val b (time_i b + 1)))

/-- `SessionBatchEnvironment.get_reward` (lines 125-137): returns
`self.rewards[batch_id, :]`, ignoring `session_states` and
`session_actions`; `none` models the failure when `rewards` was never
supplied. -/
def SessionBatchEnvironment.get_reward {α β : Type}
    (env : SessionBatchEnvironment) (session_states : α) (session_actions : β)
    (batch_id : Nat) : Option (Nat → ℚ) :=
  env.rewards.map (fun r => fun t => r batch_id t)

/-- Fields of a successfully constructed environment, read off from
`SessionBatchEnvironment.init`. -/
theorem init_ok_fields (observations : List TTensor)
    (single_observation_shapes : List (List Nat)) (acts : List TTensor)
    (single_action_shapes : SingleActionShapes) (rewards : Option RewardTensor)
    (is_alive : Option TTensor) (preceding_agent_memory : Option (List TTensor))
    (env : SessionBatchEnvironment)
    (hmk : SessionBatchEnvironment.init observations single_observation_shapes
      (some acts) single_action_shapes rewards is_alive preceding_agent_memory =
      Except.ok env) :
    env.observations = observations ∧
    env.padded_observations = observations.map padObservation ∧
    env.rewards = rewards := by
  unfold SessionBatchEnvironment.init check_list at hmk
  split at hmk
  · exact Except.noConfusion hmk
  · split at hmk
    · exact Except.noConfusion hmk
    · injection hmk with h
      subst h
      exact ⟨rfl, rfl, rfl⟩

/-- Success of construction (with actions supplied) is exactly the zip-wise
rank check together with nonemptiness of the observations list. -/
theorem init_isOk_iff (observations : List TTensor)
    (single_observation_shapes : List (List Nat)) (acts : List TTensor)
    (single_action_shapes : SingleActionShapes) (rewards : Option RewardTensor)
    (is_alive : Option TTensor) (preceding_agent_memory : Option (List TTensor)) :
    (∃ env, SessionBatchEnvironment.init observations single_observation_shapes
        (some acts) single_action_shapes rewards is_alive preceding_agent_memory =
        Except.ok env) ↔
      (((observations.zip single_observation_shapes).all
          (fun p => p.1.ndim == p.2.length + 2)) = true ∧ observations ≠ []) := by
  unfold SessionBatchEnvironment.init check_list
  constructor
  · rintro ⟨env, he⟩
    split at he
    · exact Except.noConfusion he
    · next hcond =>
      split at he
      · exact Except.noConfusion he
      · exact ⟨by simpa using hcond, by simp⟩
  · rintro ⟨hall, hne⟩
    cases observations with
    | nil => exact absurd rfl hne
    | cons obs0 tail =>
      rw [hall]
      exact ⟨_, rfl⟩

/-- Zipping ignores elements of the left list beyond the right list's
length. -/
theorem zip_append_left_ignored {α β : Type} (l1 l2 : List α) (l3 : List β)
    (h : l3.length ≤ l1.length) : (l1 ++ l2).zip l3 = l1.zip l3 := by
  induction l1 generalizing l3 with
  | nil =>
    have : l3 = [] := List.eq_nil_of_length_eq_zero (Nat.le_zero.mp h)
    subst this
    simp
  | cons x xs ih =>
    cases l3 with
    | nil => simp
    | cons y ys =>
      simp only [List.cons_append, List.zip_cons_cons, List.cons.injEq, true_and]
      exact ih ys (Nat.le_of_succ_le_succ h)

/-- Zipping ignores elements of the right list beyond the left list's
length. -/
theorem zip_append_right_ignored {α β : Type} (l1 : List α) (l3 l4 : List β)
    (h : l1.length ≤ l3.length) : l1.zip (l3 ++ l4) = l1.zip l3 := by
  induction l1 generalizing l3 with
  | nil => simp
  | cons x xs ih =>
    cases l3 with
    | nil => exact absurd h (by simp)
    | cons y ys =>
      simp only [List.cons_append, List.zip_cons_cons, List.cons.injEq, true_and]
      exact ih ys (Nat.le_of_succ_le_succ h)

/-- The spec §8 example observation: batch 2, time 3, one scalar value per
tick, values `[[1,2,3],[4,5,6]]`. -/
def obsExample : TTensor :=
  { ndim := 2
    dtype := "float32"
    shape0 := 2
    shape1 := 3
    featLen := 1
    val := fun b t => [(([[1, 2, 3], [4, 5, 6]].getD b []).getD t 0 : ℚ)] }

/-- An observation tensor whose rank 3 does not match a scalar per-tick
shape (rank 0) plus 2. -/
def obsBadRank : TTensor :=
  { ndim := 3
    dtype := "float32"
    shape0 := 2
    shape1 := 3
    featLen := 1
    val := fun _ _ => [0] }

/-- A concrete rewards tensor. -/
def rewExample : RewardTensor := fun b t => ((b * 10 + t : Nat) : ℚ)

/-- The environment `SessionBatchEnvironment.init` builds from `obsExample`
with scalar observation shape, no actions tensors, and `rewExample`. -/
def envExample : SessionBatchEnvironment :=
  { observations := [obsExample]
    single_observation_shapes := [[]]
    actions := []
    single_action_shapes := []
    rewards := some rewExample
    is_alive := none
    preceding_agent_memory := none
    padded_observations := [padObservation obsExample]
    batch_size := 2
    sequence_length := 3
    observation_dtypes := ["float32"]
    action_dtypes := [] }

theorem envExample_init :
    SessionBatchEnvironment.init [obsExample] [[]] (some [])
      SingleActionShapes.all_scalar (some rewExample) none none =
      Except.ok envExample := rfl

/-- C3: false on the code.  With `actions = None` the constructor never
assigns `self.actions`/`self.single_action_shapes`, yet lines 96/99 read
them unconditionally, so construction always raises — it never succeeds,
and in particular never defaults the action shapes to all-scalar. -/
theorem construct_without_actions_never_succeeds (observations : List TTensor)
    (single_observation_shapes : List (List Nat))
    (single_action_shapes : SingleActionShapes) (rewards : Option RewardTensor)
    (is_alive : Option TTensor)
    (preceding_agent_memory : Option (List TTensor)) :
    ∃ e, SessionBatchEnvironment.init observations single_observation_shapes
      none single_action_shapes rewards is_alive preceding_agent_memory =
      Except.error e := by
  unfold SessionBatchEnvironment.init check_list
  cases hc : (!((observations.zip single_observation_shapes).all
      (fun p => p.1.ndim == p.2.length + 2))) with
  | true => exact ⟨_, rfl⟩
  | false =>
    cases observations with
    | nil => exact ⟨_, rfl⟩
    | cons obs0 tail => exact ⟨_, rfl⟩

/-- C8: an observation tensor paired by the zip with its declared per-tick
shape makes construction fail with the shape assertion whenever its rank is
not the declared rank plus 2, at whichever position of the list it sits. -/
theorem construct_rank_mismatch_fails (observations : List TTensor)
    (single_observation_shapes : List (List Nat))
    (actions : Option (List TTensor)) (single_action_shapes : SingleActionShapes)
    (rewards : Option RewardTensor) (is_alive : Option TTensor)
    (preceding_agent_memory : Option (List TTensor))
    (obs : TTensor) (obs_shape : List Nat)
    (hmem : (obs, obs_shape) ∈ observations.zip single_observation_shapes)
    (hrank : obs.ndim ≠ obs_shape.length + 2) :
    SessionBatchEnvironment.init observations single_observation_shapes actions
      single_action_shapes rewards is_alive preceding_agent_memory =
      Except.error ConstructError.shape_assert := by
  unfold SessionBatchEnvironment.init check_list
  have hall : ((observations.zip single_observation_shapes).all
      (fun p => p.1.ndim == p.2.length + 2)) = false := by
    rw [List.all_eq_false]
    exact ⟨(obs, obs_shape), hmem, by simpa using hrank⟩
  rw [hall]
  rfl

theorem construct_rank_mismatch_fails_check :
    ((obsBadRank, ([] : List Nat)) ∈ [obsBadRank].zip [([] : List Nat)]) ∧
    obsBadRank.ndim ≠ ([] : List Nat).length + 2 ∧
    SessionBatchEnvironment.init [obsBadRank] [[]] (some [])
      SingleActionShapes.all_scalar (some rewExample) none none =
      Except.error ConstructError.shape_assert :=
  ⟨by simp, by decide,
   construct_rank_mismatch_fails [obsBadRank] [[]] (some [])
     SingleActionShapes.all_scalar (some rewExample) none none obsBadRank []
     (by simp) (by decide)⟩

/-- C10: the rank validation inspects only the zip of the observations list
with the declared-shape list, which stops at the shorter list; appending
unpaired observation tensors (or unpaired declared shapes) never changes
whether construction succeeds, so unpaired observation tensors are never
validated. -/
theorem construct_ignores_unpaired_observations (observations extra : List TTensor)
    (single_observation_shapes extra_shapes : List (List Nat))
    (acts : List TTensor) (single_action_shapes : SingleActionShapes)
    (rewards : Option RewardTensor) (is_alive : Option TTensor)
    (preceding_agent_memory : Option (List TTensor))
    (hne : observations ≠ []) :
    (single_observation_shapes.length ≤ observations.length →
      ((∃ env, SessionBatchEnvironment.init (observations ++ extra)
          single_observation_shapes (some acts) single_action_shapes rewards
          is_alive preceding_agent_memory = Except.ok env) ↔
        (∃ env, SessionBatchEnvironment.init observations
          single_observation_shapes (some acts) single_action_shapes rewards
          is_alive preceding_agent_memory = Except.ok env)))
    ∧ (observations.length ≤ single_observation_shapes.length →
      ((∃ env, SessionBatchEnvironment.init observations
          (single_observation_shapes ++ extra_shapes) (some acts)
          single_action_shapes rewards is_alive preceding_agent_memory =
          Except.ok env) ↔
        (∃ env, SessionBatchEnvironment.init observations
          single_observation_shapes (some acts) single_action_shapes rewards
          is_alive preceding_agent_memory = Except.ok env))) := by
  constructor
  · intro hlen
    rw [init_isOk_iff, init_isOk_iff,
      zip_append_left_ignored observations extra single_observation_shapes hlen]
    have hne2 : observations ++ extra ≠ [] := by
      cases observations with
      | nil => exact absurd rfl hne
      | cons o os => simp
    constructor
    · rintro ⟨hall, _⟩
      exact ⟨hall, hne⟩
    · rintro ⟨hall, _⟩
      exact ⟨hall, hne2⟩
  · intro hlen
    rw [init_isOk_iff, init_isOk_iff,
      zip_append_right_ignored observations single_observation_shapes
        extra_shapes hlen]

theorem construct_ignores_unpaired_observations_check :
    ([obsExample] : List TTensor) ≠ [] ∧
    ([([] : List Nat)].length ≤ ([obsExample] : List TTensor).length) ∧
    ((∃ env, SessionBatchEnvironment.init ([obsExample] ++ [obsBadRank]) [[]]
        (some []) SingleActionShapes.all_scalar (some rewExample) none none =
        Except.ok env) ↔
      (∃ env, SessionBatchEnvironment.init [obsExample] [[]] (some [])
        SingleActionShapes.all_scalar (some rewExample) none none =
        Except.ok env)) :=
  ⟨by simp, by simp,
   (construct_ignores_unpaired_observations [obsExample] [obsBadRank] [[]] []
      [] SingleActionShapes.all_scalar (some rewExample) none none
      (by simp)).1 (by simp)⟩

/-- C4: for every constructed environment, `get_action_results` advances the
state to `state + 1` elementwise and returns, per observation modality, the
padded tensor's value at `[b, state b + 1]`; the `actions` argument has no
influence on the result. -/
theorem step_replays_padded_observations {α β : Type}
    (observations : List TTensor) (single_observation_shapes : List (List Nat))
    (acts : List TTensor) (single_action_shapes : SingleActionShapes)
    (rewards : Option RewardTensor) (is_alive : Option TTensor)
    (preceding_agent_memory : Option (List TTensor))
    (env : SessionBatchEnvironment)
    (hmk : SessionBatchEnvironment.init observations single_observation_shapes
      (some acts) single_action_shapes rewards is_alive preceding_agent_memory =
      Except.ok env)
    (time_i : Nat → Nat) (rest : List (Nat → Nat)) (a1 : α) (a2 : β) :
    env.get_action_results (time_i :: rest) a1 =
      some ([fun b => time_i b + 1],
        observations.map
          (fun obs => fun b => (padObservation obs).val b (time_i b + 1)))
    ∧ env.get_action_results (time_i :: rest) a1 =
        env.get_action_results (time_i :: rest) a2 := by
  obtain ⟨-, hpad, -⟩ := init_ok_fields _ _ _ _ _ _ _ _ hmk
  refine ⟨?_, rfl⟩
  have hstep : env.get_action_results (time_i :: rest) a1 =
      some ([fun b => time_i b + 1],
        env.padded_observations.map
          (fun obs => fun b => obs.val b (time_i b + 1))) := rfl
  rw [hstep, hpad, List.map_map]
  rfl

theorem step_replays_padded_observations_check :
    (SessionBatchEnvironment.init [obsExample] [[]] (some [])
        SingleActionShapes.all_scalar (some rewExample) none none =
        Except.ok envExample) ∧
    (envExample.get_action_results [fun _ => 0] (7 : Nat) =
        some ([fun b => (fun _ => 0 : Nat → Nat) b + 1],
          [obsExample].map (fun obs => fun b =>
            (padObservation obs).val b ((fun _ => 0 : Nat → Nat) b + 1)))
      ∧ envExample.get_action_results [fun _ => 0] (7 : Nat) =
          envExample.get_action_results [fun _ => 0] (true : Bool)) :=
  ⟨rfl,
   step_replays_padded_observations [obsExample] [[]] []
     SingleActionShapes.all_scalar (some rewExample) none none envExample rfl
     (fun _ => 0) [] 7 true⟩

/-- C5: each padded observation is its original tensor with one all-zero tick
appended on the time axis, so stepping from the last valid tick
(`state = sequence_length - 1`, where every observation's time extent is
`sequence_length`) returns tick `sequence_length` as the new state and the
all-zero padding row for every observation modality, inside the padded
tensor's bounds. -/
theorem step_last_tick_returns_padding {α : Type}
    (observations : List TTensor) (single_observation_shapes : List (List Nat))
    (acts : List TTensor) (single_action_shapes : SingleActionShapes)
    (rewards : Option RewardTensor) (is_alive : Option TTensor)
    (preceding_agent_memory : Option (List TTensor))
    (env : SessionBatchEnvironment) (L : Nat)
    (hmk : SessionBatchEnvironment.init observations single_observation_shapes
      (some acts) single_action_shapes rewards is_alive preceding_agent_memory =
      Except.ok env)
    (hL : 1 ≤ L) (hshare : ∀ o ∈ observations, o.shape1 = L) (a : α) :
    (∀ o ∈ observations,
        (padObservation o).shape1 = o.shape1 + 1
        ∧ (∀ b t, t < o.shape1 → (padObservation o).val b t = o.val b t)
        ∧ (∀ b, (padObservation o).val b o.shape1 = List.replicate o.featLen 0))
    ∧ (∀ res, env.get_action_results [fun _ => L - 1] a = some res →
        (∀ s ∈ res.1, ∀ b, s b = L)
        ∧ (∀ f ∈ res.2, ∀ b, ∀ x ∈ f b, x = 0)) := by
  obtain ⟨-, hpad, -⟩ := init_ok_fields _ _ _ _ _ _ _ _ hmk
  have hL1 : L - 1 + 1 = L := Nat.succ_pred_eq_of_pos hL
  refine ⟨?_, ?_⟩
  · intro o ho
    refine ⟨rfl, ?_, ?_⟩
    · intro b t ht
      simp [padObservation, ht]
    · intro b
      simp [padObservation]
  · intro res hres
    unfold SessionBatchEnvironment.get_action_results check_list at hres
    rw [hpad] at hres
    injection hres with h
    subst h
    constructor
    · intro s hs b
      rw [List.mem_singleton] at hs
      subst hs
      simpa using hL1
    · intro f hf b x hx
      rw [List.map_map, List.mem_map] at hf
      obtain ⟨o, ho, rfl⟩ := hf
      simp only [Function.comp, hL1] at hx
      simp only [padObservation, hshare o ho, Nat.lt_irrefl, if_false] at hx
      exact List.eq_of_mem_replicate hx

theorem step_last_tick_returns_padding_check :
    (SessionBatchEnvironment.init [obsExample] [[]] (some [])
        SingleActionShapes.all_scalar (some rewExample) none none =
        Except.ok envExample) ∧
    1 ≤ 3 ∧ (∀ o ∈ ([obsExample] : List TTensor), o.shape1 = 3) ∧
    ((∀ o ∈ ([obsExample] : List TTensor),
        (padObservation o).shape1 = o.shape1 + 1
        ∧ (∀ b t, t < o.shape1 → (padObservation o).val b t = o.val b t)
        ∧ (∀ b, (padObservation o).val b o.shape1 = List.replicate o.featLen 0))
      ∧ (∀ res, envExample.get_action_results [fun _ => 3 - 1] (42 : Nat) =
            some res →
          (∀ s ∈ res.1, ∀ b, s b = 3)
          ∧ (∀ f ∈ res.2, ∀ b, ∀ x ∈ f b, x = 0))) :=
  ⟨rfl, by norm_num, by simp [obsExample],
   step_last_tick_returns_padding [obsExample] [[]] []
     SingleActionShapes.all_scalar (some rewExample) none none envExample 3 rfl
     (by norm_num) (by simp [obsExample]) 42⟩

/-- C6: `get_reward` returns the stored rewards row `rewards[batch_id, :]`
for the requested batch index, whatever the `session_states` and
`session_actions` arguments are. -/
theorem reward_returns_stored_row {α β γ δ : Type}
    (observations : List TTensor) (single_observation_shapes : List (List Nat))
    (acts : List TTensor) (single_action_shapes : SingleActionShapes)
    (r : RewardTensor) (is_alive : Option TTensor)
    (preceding_agent_memory : Option (List TTensor))
    (env : SessionBatchEnvironment)
    (hmk : SessionBatchEnvironment.init observations single_observation_shapes
      (some acts) single_action_shapes (some r) is_alive
      preceding_agent_memory = Except.ok env)
    (batch_id : Nat) (s1 : α) (a1 : β) (s2 : γ) (a2 : δ) :
    env.get_reward s1 a1 batch_id = some (fun t => r batch_id t)
    ∧ env.get_reward s1 a1 batch_id = env.get_reward s2 a2 batch_id := by
  obtain ⟨-, -, hr⟩ := init_ok_fields _ _ _ _ _ _ _ _ hmk
  refine ⟨?_, rfl⟩
  unfold SessionBatchEnvironment.get_reward
  rw [hr]
  rfl

theorem reward_returns_stored_row_check :
    (SessionBatchEnvironment.init [obsExample] [[]] (some [])
        SingleActionShapes.all_scalar (some rewExample) none none =
        Except.ok envExample) ∧
    (envExample.get_reward (0 : Nat) (1 : Nat) 1 =
        some (fun t => rewExample 1 t)
      ∧ envExample.get_reward (0 : Nat) (1 : Nat) 1 =
          envExample.get_reward (5 : Nat) (6 : Nat) 1) :=
  ⟨rfl,
   reward_returns_stored_row [obsExample] [[]] []
     SingleActionShapes.all_scalar rewExample none none envExample rfl
     1 0 1 5 6⟩

end AgentNet
